import Mathlib

set_option linter.unusedVariables false

/-! Shallow embedding of the bulk export/import orchestration layer of the
repository mlflow-export-import-with-filter, covering
`mlflow_export_import/bulk/bulk_utils.py`,
`mlflow_export_import/bulk/export_experiments.py` and
`mlflow_export_import/model/import_model.py`.
Python strings are modelled as `List Char`; the Python string primitives the
source uses (`find`, slicing, `split`, `replace`, `startswith`, `endswith`,
substring `in`, `os.path.join`) are embedded explicitly. Remote collaborators
(the mlflow client, the single-entity exporter/importer, the filesystem) are
abstracted as environment records whose calls either return a value or raise
one of the exception classes the source code distinguishes. -/

/-- Python strings, modelled as lists of characters. -/
abbrev Str : Type := List Char

/-- Coerce a Lean string literal to the `Str` model. -/
def str (s : String) : Str := s.data

/-- Python `source.find(pat)`, auxiliary scan carrying the current index:
index of the first occurrence of `pat` in the remaining text, or `-1`. -/
def pyFindAux (pat : Str) : Str → Nat → Int
  | [], i => if pat.isPrefixOf ([] : Str) then (i : Int) else -1
  | c :: t, i => if pat.isPrefixOf (c :: t) then (i : Int) else pyFindAux pat t (i + 1)

/-- Python `source.find(pat)`: index of the first occurrence of `pat` in
`source`, or `-1` when `pat` does not occur. -/
def pyFind (source pat : Str) : Int := pyFindAux pat source 0

/-- Python `s.split(sep)` for a single-character separator. -/
def pySplit : Str → Char → List Str
  | [], _ => [[]]
  | c :: t, sep =>
    match pySplit t sep with
    | [] => [[]]
    | h :: r => if c = sep then [] :: h :: r else (c :: h) :: r

/-- Python `needle in hay` (contiguous substring test). -/
def containsSub : Str → Str → Bool
  | [], needle => needle.isEmpty
  | c :: t, needle => needle.isPrefixOf (c :: t) || containsSub t needle

/-- Python `s.replace(pat, repl)` replaces every non-overlapping occurrence
of `pat`, left to right. The fuel argument is initialised to the length of
the subject string, which bounds the number of recursion steps. -/
def replaceSubAux (pat repl : Str) : Nat → Str → Str
  | 0, s => s
  | _ + 1, [] => []
  | fuel + 1, c :: t =>
    if pat.isPrefixOf (c :: t) && !pat.isEmpty then
      repl ++ replaceSubAux pat repl fuel (List.drop (pat.length - 1) t)
    else
      c :: replaceSubAux pat repl fuel t

/-- Python `s.replace(pat, repl)` for a nonempty pattern. -/
def replaceSub (pat repl s : Str) : Str := replaceSubAux pat repl s.length s

/-- POSIX `os.path.join(x, y)` for two components. -/
def os_path_join (x y : Str) : Str :=
  if ['/'].isPrefixOf y then y
  else if x.isEmpty then y
  else if x.getLast? = some '/' then x ++ y
  else x ++ '/' :: y

/-- Line 77-78 of `model/import_model.py`: strip the `artifacts/` segment
from the resolved suffix when present (the source uses `str.replace`, which
removes every occurrence). -/
def pyStripArtifacts (model_path : Str) : Str :=
  if (str "artifacts/").isPrefixOf model_path then
    replaceSub (str "artifacts/") [] model_path
  else model_path

/-- `extract_model_path` from `model/import_model.py` (lines 74-79): the
suffix of `source` one character past the first occurrence of `run_id`,
with the `artifacts/` segment stripped when present. -/
def extract_model_path (source run_id : Str) : Str :=
  pyStripArtifacts
    (List.drop (1 + pyFind source run_id + (run_id.length : Int)).toNat source)

/-- `path_join` from `model/import_model.py` (lines 81-86): join the two
components, then normalise DOS backslashes for `dbfs:` destinations. -/
def path_join (x y : Str) : Str :=
  let path := os_path_join x y
  if (str "dbfs:").isPrefixOf path then replaceSub (str "\\") (str "/") path
  else path

/-- Decidable equality for `Except`, used to evaluate the embedded
operations at concrete inputs. -/
instance instDecEqExcept {ε α : Type} [DecidableEq ε] [DecidableEq α] :
    DecidableEq (Except ε α) := fun a b =>
  match a, b with
  | .ok x, .ok y =>
    if h : x = y then .isTrue (by rw [h]) else .isFalse (by simp [h])
  | .error x, .error y =>
    if h : x = y then .isTrue (by rw [h]) else .isFalse (by simp [h])
  | .ok _, .error _ => .isFalse (by simp)
  | .error _, .ok _ => .isFalse (by simp)

/-- The exception classes that the source code distinguishes in its
`except` clauses: `RestException` (remote-API errors, carrying the text of
`str(e)`), `MlflowExportImportException` (internal export/import errors),
and every other `Exception` (unclassified errors, carrying a message). -/
inductive PyExc where
  | restException (msg : Str)
  | exportImportException (msg : Str)
  | otherException (msg : Str)
deriving DecidableEq, Repr

/-- Exceptions that escape the bulk export orchestrator itself (they are
never produced by a per-entity task, whose exceptions are all caught). -/
inductive PyErr where
  | nameError (v : Str)
  | valueError
  | attributeError
deriving DecidableEq, Repr

/-- Outcome of one collaborator call: a returned value or a raised
exception. -/
inductive CollabResult (α : Type) where
  | ok (a : α)
  | raise (e : PyExc)
deriving DecidableEq, Repr

/-- A dynamically-typed Python value as it flows through the entity
resolution code: a string, or a `(name, experiment_id)` tuple produced by
the listing used by `bulk_utils.get_experiments`. -/
inductive PyObj where
  | s (v : Str)
  | pair (fst snd : Str)
deriving DecidableEq, Repr

/-- Argument shapes accepted by `_get_list` in `bulk/bulk_utils.py`: a
string, or any non-string (returned unchanged by the source; the dict case
of the orchestrator is modelled at its call site). -/
inductive NamesArg where
  | str (v : Str)
  | objs (l : List PyObj)
deriving DecidableEq, Repr

/-- The list comprehension of the wildcard branch of `_get_list`
(bulk_utils.py line 17): keep the elements starting with the stripped
pattern; calling `startswith` on a tuple element raises `AttributeError`. -/
def pyFilterStartsWith (pre : Str) : List PyObj → Except PyErr (List PyObj)
  | [] => .ok []
  | PyObj.s x :: rest =>
    match pyFilterStartsWith pre rest with
    | .error e => .error e
    | .ok tail => .ok (if pre.isPrefixOf x then PyObj.s x :: tail else tail)
  | PyObj.pair _ _ :: _ => .error PyErr.attributeError

/-- `_get_list` from `bulk/bulk_utils.py` (lines 5-21): `"all"` returns the
full listing, a trailing `"*"` filters the listing by the stripped pattern,
any other string is split on commas without consulting the listing, and a
non-string argument is returned unchanged. -/
def _get_list (names : NamesArg) (func_list : Unit → List PyObj) :
    Except PyErr (List PyObj) :=
  match names with
  | .str v =>
    if v = str "all" then .ok (func_list ())
    else if ['*'].isSuffixOf v then pyFilterStartsWith v.dropLast (func_list ())
    else .ok ((pySplit v ',').map PyObj.s)
  | .objs l => .ok l

/-- The `experiments` argument of `export_experiments` (docstring lines
42-47): a string (possibly naming a `.txt` file), a list of experiment
names or ids, or a dict mapping an experiment id to a list of run ids. -/
inductive ExpArgVal where
  | str (v : Str)
  | list (l : List Str)
  | dict (d : List (Str × List Str))
deriving DecidableEq, Repr

/-- The dynamically-typed value `bulk_utils.get_experiments` hands back to
the orchestrator: a list of objects (tuples or strings), or the dict passed
through unchanged. -/
inductive GetExpResult where
  | objs (l : List PyObj)
  | dict (d : List (Str × List Str))
deriving DecidableEq, Repr

/-- `bulk_utils.get_experiments` (bulk_utils.py lines 36-39) as called on
line 64 of `export_experiments`: the listing function yields
`(exp.name, exp.experiment_id)` tuples, so `"all"` produces tuples, a
comma-delimited string produces plain strings, and a dict passes through
the non-string branch of `_get_list` unchanged. -/
def get_experiments_model (lst : List (Str × Str)) :
    ExpArgVal → Except PyErr GetExpResult
  | .str v =>
    (_get_list (NamesArg.str v) (fun _ => lst.map fun p => PyObj.pair p.1 p.2)).map
      GetExpResult.objs
  | .list l =>
    (_get_list (NamesArg.objs (l.map PyObj.s))
      (fun _ => lst.map fun p => PyObj.pair p.1 p.2)).map GetExpResult.objs
  | .dict d => .ok (GetExpResult.dict d)

/-- Python tuple unpacking `exp_name, exp_id = e` (line 88 of
`export_experiments`): a pair unpacks into its components, a string of
length two unpacks into its two characters, anything else raises
`ValueError`. -/
def unpack2 : PyObj → Except PyErr (Str × Str)
  | PyObj.pair a b => .ok (a, b)
  | PyObj.s [c1, c2] => .ok ([c1], [c2])
  | PyObj.s _ => .error PyErr.valueError

/-- The filter loop of `export_experiments` (lines 86-91): unpack each
element as a `(name, id)` pair and keep the id when the filter term occurs
in the name as a substring. -/
def applyFilterLoop (f : Str) : List PyObj → Except PyErr (List PyObj)
  | [] => .ok []
  | e :: rest =>
    match unpack2 e with
    | .error err => .error err
    | .ok ni =>
      match applyFilterLoop f rest with
      | .error err => .error err
      | .ok tail => .ok (if containsSub ni.1 f then PyObj.s ni.2 :: tail else tail)

/-- Python truthiness of the `experiment_filter` argument: `None` and the
empty string are falsy. -/
def truthyFilter : Option Str → Bool
  | none => false
  | some s => !s.isEmpty

/-- The experiment object returned by `mlflow_utils.get_experiment`. -/
structure ExpInfo where
  name : Str
  experiment_id : Str
deriving DecidableEq, Repr

/-- Behaviour of the two collaborators one export task invokes:
`mlflow_utils.get_experiment` (line 169) and the single-entity
`export_experiment` (line 173, returning `(ok_runs, failed_runs)`). -/
structure TaskCollab where
  get_experiment : CollabResult ExpInfo
  export_experiment : CollabResult (Int × Int)

/-- The `Result` dataclass of `bulk/export_experiments.py` (lines 214-218).
The `name` field is declared as a string but dynamically holds whatever was
submitted when `get_experiment` raises, hence `PyObj`. -/
structure Result where
  name : PyObj
  ok_runs : Int
  failed_runs : Int
deriving DecidableEq, Repr

/-- One element of the `export_results` list appended on success
(lines 184-191; the `duration` field is wall-clock time and omitted). -/
structure ExpRecord where
  id : Str
  name : Str
  ok_runs : Int
  failed_runs : Int
deriving DecidableEq, Repr

/-- `_export_experiment` from `bulk/export_experiments.py` (lines 164-204):
`ok_runs` and `failed_runs` start at the `-1` sentinel and `exp_name` at
the submitted identifier; every collaborator exception (`RestException`,
`MlflowExportImportException`, or any other `Exception`) is caught, so a
raise at either step yields the sentinel `Result` and no appended record. -/
def _export_experiment (collab : TaskCollab) (exp_id : PyObj) :
    Result × Option ExpRecord :=
  match collab.get_experiment with
  | .raise _ => ({ name := exp_id, ok_runs := -1, failed_runs := -1 }, none)
  | .ok exp =>
    match collab.export_experiment with
    | .raise _ => ({ name := PyObj.s exp.name, ok_runs := -1, failed_runs := -1 }, none)
    | .ok nf =>
      ({ name := PyObj.s exp.name, ok_runs := nf.1, failed_runs := nf.2 },
       some { id := exp.experiment_id, name := exp.name,
              ok_runs := nf.1, failed_runs := nf.2 })

/-- Resolution of the submitted entities and the `run_ids` each task gets
(lines 54-108 of `export_experiments`, without the `.txt` file branch):
`export_all_runs` is true exactly when the argument is not a dict, the
substring filter runs only under `export_all_runs and experiment_filter`,
and `run_ids` comes from `experiments_dct.get` (empty for non-dict
arguments). -/
def nonTxtResolve (arg : ExpArgVal) (filt : Option Str) (lst : List (Str × Str)) :
    Except PyErr (List (PyObj × Option (List Str))) :=
  let export_all_runs : Bool :=
    match arg with
    | .dict _ => false
    | _ => true
  match get_experiments_model lst arg with
  | .error e => .error e
  | .ok (GetExpResult.objs l) =>
    let filtered : Except PyErr (List PyObj) :=
      if export_all_runs && truthyFilter filt then applyFilterLoop (filt.getD []) l
      else .ok l
    match filtered with
    | .error e => .error e
    | .ok exps => .ok (exps.map fun e => (e, none))
  | .ok (GetExpResult.dict d) =>
    .ok (d.map fun kv => (PyObj.s kv.1, d.lookup kv.1))

/-- Lines 54-108 of `export_experiments`: argument resolution, the optional
substring filter (line 86), and the submitted `(entity, run_ids)` pairs, in
submission order. A string argument ending in `".txt"` reads the file
(lines 56-61) but never assigns the local variable `export_all_runs`, so
evaluating the guard on line 86 raises `NameError` - whether or not a
filter was supplied - before any task is submitted. -/
def resolveSubmissions (arg : ExpArgVal) (filt : Option Str)
    (lst : List (Str × Str)) (read_file : Str → List Str) :
    Except PyErr (List (PyObj × Option (List Str))) :=
  match arg with
  | .str v =>
    if (str ".txt").isSuffixOf v then
      let _experiments := (read_file v).map PyObj.s
      .error (PyErr.nameError (str "export_all_runs"))
    else nonTxtResolve (ExpArgVal.str v) filt lst
  | a => nonTxtResolve a filt lst

/-- The `status` block of the `info` section (lines 133-139; the wall-clock
`duration` field is omitted). -/
structure StatusInfo where
  experiments : Int
  total_runs : Int
  ok_runs : Int
  failed_runs : Int
deriving DecidableEq, Repr

/-- The `info` section of the manifest (lines 122-140): experiment names,
aggregate status, and the optional `note` set only on merge (line 151).
The echo of the invocation options is omitted (environment-dependent and
unreferenced by any claim). -/
structure InfoAttr where
  experiment_names : List PyObj
  status : StatusInfo
  note : Option Str
deriving DecidableEq, Repr

/-- The `mlflow` section of the manifest (line 141). -/
structure MlflowAttr where
  experiments : List ExpRecord
deriving DecidableEq, Repr

/-- The manifest written to `experiments.json`. -/
structure Manifest where
  mlflow : MlflowAttr
  info : InfoAttr
deriving DecidableEq, Repr

/-- Aggregation of the per-task results into the new report (lines
110-141): sum the `ok_runs` and `failed_runs` fields of every `Result`
(sentinels included), collect the names, and set
`total_runs = ok_runs + failed_runs`. The shared `export_results` list is
modelled in submission order. -/
def buildReport (results : List (Result × Option ExpRecord)) : Manifest :=
  let ok_runs := (results.map fun r => r.1.ok_runs).sum
  let failed_runs := (results.map fun r => r.1.failed_runs).sum
  let names := results.map fun r => r.1.name
  { mlflow := { experiments := results.filterMap fun r => r.2 },
    info := { experiment_names := names,
              status := { experiments := (names.length : Int),
                          total_runs := ok_runs + failed_runs,
                          ok_runs := ok_runs,
                          failed_runs := failed_runs },
              note := none } }

/-- `export_experiments` up to the construction of the new report (lines
30-141): resolve the submissions, run one task per submission, aggregate. -/
def export_experimentsCore (arg : ExpArgVal) (filt : Option Str)
    (lst : List (Str × Str)) (read_file : Str → List Str)
    (env : PyObj → Option (List Str) → TaskCollab) : Except PyErr Manifest :=
  (resolveSubmissions arg filt lst read_file).map fun subs =>
    buildReport (subs.map fun p => _export_experiment (env p.1 p.2) p.1)

/-- The fixed note written on line 151 of `export_experiments`. -/
def mergedNote : Str :=
  str "Merged by export_all from export_models and export_experiments"

/-- Modelled from the spec: `merge_mlflow` of the module
`bulk/experiments_merge_utils.py`, which is not among the provided
sources. Payload lists are concatenated, preserving append semantics
(spec sections 2 and 4.3). -/
def merge_mlflow (ex inc : MlflowAttr) : MlflowAttr :=
  { experiments := ex.experiments ++ inc.experiments }

/-- Modelled from the spec: `merge_info` of the module
`bulk/experiments_merge_utils.py`, which is not among the provided
sources. Additive fields (counts, run totals) are summed, list fields
appended, and incoming scalar fields win on conflict (spec section 4.3). -/
def merge_info (ex inc : InfoAttr) : InfoAttr :=
  { experiment_names := ex.experiment_names ++ inc.experiment_names,
    status := { experiments := ex.status.experiments + inc.status.experiments,
                total_runs := ex.status.total_runs + inc.status.total_runs,
                ok_runs := ex.status.ok_runs + inc.status.ok_runs,
                failed_runs := ex.status.failed_runs + inc.status.failed_runs },
    note := inc.note }

/-- `export_experiments` from `bulk/export_experiments.py` (lines 30-161).
`existing` is the manifest already present at the output path, `none` when
no `experiments.json` exists there (lines 143-153); the returned manifest
is the one written back to `experiments.json`. -/
def export_experiments (arg : ExpArgVal) (filt : Option Str)
    (lst : List (Str × Str)) (read_file : Str → List Str)
    (env : PyObj → Option (List Str) → TaskCollab)
    (existing : Option Manifest) : Except PyErr Manifest :=
  (export_experimentsCore arg filt lst read_file env).map fun fresh =>
    match existing with
    | none => fresh
    | some old =>
      { mlflow := merge_mlflow old.mlflow fresh.mlflow,
        info := { merge_info old.info fresh.info with note := some mergedNote } }

/-- One entry of `latest_versions` in the `model.json` manifest, as read by
`ModelImporter.import_model` (lines 46-50). -/
structure VersionRec where
  version : Str
  run_id : Str
  source : Str
  current_stage : Str
  run_artifact_uri : Str
deriving DecidableEq, Repr

/-- The run object returned by `client.get_run` (line 61): its id and its
`info.artifact_uri`. -/
structure RunInfo where
  run_id : Str
  artifact_uri : Str
deriving DecidableEq, Repr

/-- The parsed `registered_model` section of `model.json` (lines 21-29);
parsing the file is the collaborator `utils.read_json_file`. -/
structure ModelDict where
  name : Str
  description : Str
  tags : List (Str × Str)
  latest_versions : List VersionRec
deriving DecidableEq, Repr

/-- Behaviour of the collaborators `ModelImporter.import_model` invokes:
`model_utils.delete_model`, `client.create_registered_model`,
`mlflow.set_experiment`, `run_importer.import_run` (keyed by the run
directory, returning the new run id), `client.get_run`, `os.path.exists`,
`client.create_model_version` (returning the new version id),
`model_utils.wait_until_version_is_ready` and
`client.transition_model_version_stage`. -/
structure ImportEnv where
  delete_model : Str → CollabResult Unit
  create_registered_model : Str → CollabResult Unit
  set_experiment : Str → CollabResult Unit
  import_run : Str → CollabResult Str
  get_run : Str → CollabResult RunInfo
  path_exists : Str → Bool
  create_model_version : Str → Str → Str → CollabResult Str
  wait_ready : Str → Str → CollabResult Unit
  transition : Str → Str → Str → CollabResult Unit

/-- Observable collaborator effects of a model import, in call order. -/
inductive Event where
  | deletedModel (name : Str)
  | createModelCalled (name : Str)
  | setExperimentCalled (name : Str)
  | importedRun (version : Str)
  | createdVersion (version : Str) (source : Str)
  | transitioned (version : Str) (stage : Str)
deriving DecidableEq, Repr

/-- The substring that line 41 of `model/import_model.py` looks for in
`str(e)` to recognise a benign already-exists creation failure. -/
def alreadyExistsMsg : Str := str "RESOURCE_ALREADY_EXISTS: Registered Model"

/-- The exception raised on line 68 of `model/import_model.py` when the
composed source path does not exist (a plain `Exception`; the model keeps
its message without the surrounding quote characters). -/
def missingSrcExc (source : Str) : PyExc :=
  PyExc.otherException
    (str "source argument for MLflowClient.create_model_version does not exist: " ++ source)

/-- Steps e-g of one version import (lines 69-72): create the destination
model version, wait until it is ready, and transition its stage unless the
recorded stage is the literal sentinel `"None"`. Any raise propagates. -/
def createVersionSteps (env : ImportEnv) (model_name : Str) (v : VersionRec)
    (source new_run_id : Str) : List Event × Option PyExc :=
  match env.create_model_version model_name source new_run_id with
  | .raise e => ([], some e)
  | .ok version =>
    match env.wait_ready model_name version with
    | .raise e => ([Event.createdVersion v.version source], some e)
    | .ok _ =>
      if v.current_stage ≠ str "None" then
        match env.transition model_name version v.current_stage with
        | .raise e => ([Event.createdVersion v.version source], some e)
        | .ok _ =>
          ([Event.createdVersion v.version source,
            Event.transitioned v.version v.current_stage], none)
      else ([Event.createdVersion v.version source], none)

/-- One iteration of the version loop of `ModelImporter.import_model`
(lines 46-72): import the source run from `input_dir/<run_id>`, fetch the
new run, compose the destination source path, check its existence unless it
is a `dbfs:` path (lines 65-68), then run the creation steps. No exception
is caught anywhere in the loop body. -/
def importOneVersion (env : ImportEnv) (input_dir model_name : Str)
    (v : VersionRec) : List Event × Option PyExc :=
  let run_dir := os_path_join input_dir v.run_id
  let model_path := extract_model_path v.source v.run_id
  match env.import_run run_dir with
  | .raise e => ([], some e)
  | .ok new_run_id =>
    match env.get_run new_run_id with
    | .raise e => ([Event.importedRun v.version], some e)
    | .ok run =>
      let source := path_join run.artifact_uri model_path
      if !(str "dbfs:").isPrefixOf source && !env.path_exists source then
        ([Event.importedRun v.version], some (missingSrcExc source))
      else
        let r := createVersionSteps env model_name v source new_run_id
        (Event.importedRun v.version :: r.1, r.2)

/-- The `for v in dct["latest_versions"]` loop (line 46): versions are
processed in recorded order and the first uncaught exception stops the
whole loop. -/
def importVersions (env : ImportEnv) (input_dir model_name : Str) :
    List VersionRec → List Event × Option PyExc
  | [] => ([], none)
  | v :: rest =>
    let r := importOneVersion env input_dir model_name v
    match r.2 with
    | some e => (r.1, some e)
    | none =>
      let rr := importVersions env input_dir model_name rest
      (r.1 ++ rr.1, rr.2)

/-- Lines 43-72 of `ModelImporter.import_model`: select the destination
experiment, then run the version loop. -/
def afterCreate (env : ImportEnv) (input_dir model_name experiment_name : Str)
    (dct : ModelDict) : List Event × Option PyExc :=
  match env.set_experiment experiment_name with
  | .raise e => ([Event.setExperimentCalled experiment_name], some e)
  | .ok _ =>
    let r := importVersions env input_dir model_name dct.latest_versions
    (Event.setExperimentCalled experiment_name :: r.1, r.2)

/-- `ModelImporter.import_model` from `model/import_model.py` (lines
20-72). The destination name defaults to the recorded one; with
`delete_flag` the model is deleted first; creation of the registered model
swallows a `RestException` whose text contains
`RESOURCE_ALREADY_EXISTS: Registered Model` and re-raises every other
`RestException` (lines 37-42), while exceptions of any other class
propagate uncaught; then the destination experiment is selected and the
version loop runs. The result pairs the collaborator events with the
exception escaping `import_model`, if any. -/
def import_model (env : ImportEnv) (input_dir : Str) (dct : ModelDict)
    (model_name : Option Str) (experiment_name : Str) (delete_flag : Bool) :
    List Event × Option PyExc :=
  let mn := model_name.getD dct.name
  let step2 : List Event × Option PyExc :=
    match env.create_registered_model mn with
    | .ok _ => afterCreate env input_dir mn experiment_name dct
    | .raise (PyExc.restException m) =>
      if containsSub m alreadyExistsMsg then
        afterCreate env input_dir mn experiment_name dct
      else ([], some (PyExc.restException m))
    | .raise e => ([], some e)
  let withCreate : List Event × Option PyExc :=
    (Event.createModelCalled mn :: step2.1, step2.2)
  if delete_flag then
    match env.delete_model mn with
    | .raise e => ([], some e)
    | .ok _ => (Event.deletedModel mn :: withCreate.1, withCreate.2)
  else withCreate

/-- Boolean success test for `Except`. -/
def exceptIsOk {ε α : Type} : Except ε α → Bool
  | .ok _ => true
  | .error _ => false

/-- Sum of the `ok_runs` fields of the task results of a list of
explicitly-named experiments (each submitted as a plain string with no
`run_ids`). -/
def taskOkSum (env : PyObj → Option (List Str) → TaskCollab) (l : List Str) : Int :=
  (l.map fun x => (_export_experiment (env (PyObj.s x) none) (PyObj.s x)).1.ok_runs).sum

/-- Sum of the `failed_runs` fields of the task results of a list of
explicitly-named experiments. -/
def taskFailedSum (env : PyObj → Option (List Str) → TaskCollab) (l : List Str) : Int :=
  (l.map fun x => (_export_experiment (env (PyObj.s x) none) (PyObj.s x)).1.failed_runs).sum

/-- A task environment in which every collaborator call raises an
unclassified exception. -/
def envBoom : PyObj → Option (List Str) → TaskCollab := fun _ _ =>
  { get_experiment := .raise (.otherException (str "boom")),
    export_experiment := .raise (.otherException (str "boom")) }

/-- A task environment in which experiment `e1` exports five runs with no
failures and every other entity raises a remote-API error. -/
def envOneFail : PyObj → Option (List Str) → TaskCollab := fun x _ =>
  if x = PyObj.s (str "e1") then
    { get_experiment := .ok { name := str "E1", experiment_id := str "1" },
      export_experiment := .ok (5, 0) }
  else
    { get_experiment := .raise (.restException (str "no such experiment")),
      export_experiment := .raise (.restException (str "no such experiment")) }

/-- An import environment whose remote calls succeed, whose imported runs
land at artifact root `/dest/art`, and whose local filesystem is empty. -/
def envImp : ImportEnv :=
  { delete_model := fun _ => .ok ()
    create_registered_model := fun _ => .ok ()
    set_experiment := fun _ => .ok ()
    import_run := fun _ => .ok (str "d1")
    get_run := fun _ => .ok { run_id := str "d1", artifact_uri := str "/dest/art" }
    path_exists := fun _ => false
    create_model_version := fun _ _ _ => .ok (str "7")
    wait_ready := fun _ _ => .ok ()
    transition := fun _ _ _ => .ok () }

/-- `envImp` with a filesystem on which every path except
`/dest/art/modelB` exists. -/
def envImp2 : ImportEnv :=
  { envImp with path_exists := fun s => s != str "/dest/art/modelB" }

/-- A recorded model version whose source lives under
`<run_id>/artifacts/model`. -/
def v1 : VersionRec :=
  { version := str "1", run_id := str "r1", source := str "/x/r1/artifacts/model",
    current_stage := str "None", run_artifact_uri := str "/x/r1" }

/-- A second recorded model version of the same shape as `v1`. -/
def v2 : VersionRec :=
  { version := str "2", run_id := str "r2", source := str "/x/r2/artifacts/model",
    current_stage := str "None", run_artifact_uri := str "/x/r2" }

/-- A recorded model version whose remapped source `/dest/art/modelB` is
missing from the `envImp2` filesystem. -/
def v3 : VersionRec :=
  { version := str "3", run_id := str "r3", source := str "/x/r3/artifacts/modelB",
    current_stage := str "None", run_artifact_uri := str "/x/r3" }

/-- A two-version model manifest. -/
def mdl12 : ModelDict :=
  { name := str "m", description := [], tags := [], latest_versions := [v1, v2] }

/-- The report `export_experiments` builds for the explicit list `["e"]`
under `envBoom`: the single task fails, so the sentinel lands in both
counters. -/
def freshSample : Manifest :=
  { mlflow := { experiments := [] },
    info := { experiment_names := [PyObj.s (str "e")],
              status := { experiments := 1, total_runs := -2, ok_runs := -1, failed_runs := -1 },
              note := none } }

/-- A pre-existing manifest at the output path, as a sibling orchestrator
would have written it. -/
def oldSample : Manifest :=
  { mlflow := { experiments := [{ id := str "9", name := str "q", ok_runs := 3, failed_runs := 1 }] },
    info := { experiment_names := [PyObj.s (str "q")],
              status := { experiments := 1, total_runs := 4, ok_runs := 3, failed_runs := 1 },
              note := none } }

/-! Helper lemmas shared by the claim theorems. -/

theorem drop_len_add (l x : List Char) (n : Nat) :
    List.drop (l.length + n) (l ++ x) = List.drop n x := by
  induction l with
  | nil => simp
  | cons c t ih => simp [Nat.succ_add, ih]

theorem task_sentinel (c : TaskCollab) (x : PyObj)
    (h : (∃ e, c.get_experiment = CollabResult.raise e) ∨
         (∃ e, c.export_experiment = CollabResult.raise e)) :
    (_export_experiment c x).1.ok_runs = -1 ∧
    (_export_experiment c x).1.failed_runs = -1 ∧
    (_export_experiment c x).2 = none := by
  unfold _export_experiment
  cases hg : c.get_experiment with
  | raise e => simp
  | ok exp =>
    cases he : c.export_experiment with
    | raise e => simp
    | ok nf =>
      rcases h with ⟨e, he2⟩ | ⟨e, he2⟩
      · rw [hg] at he2; simp at he2
      · rw [he] at he2; simp at he2

theorem startsWith_filter (pre : Str) (l : List Str) :
    pyFilterStartsWith pre (l.map PyObj.s) =
      .ok ((l.filter fun x => pre.isPrefixOf x).map PyObj.s) := by
  induction l with
  | nil => rfl
  | cons x t ih =>
    cases hpx : pre.isPrefixOf x <;>
      simp [pyFilterStartsWith, ih, List.filter_cons, hpx]

theorem resolve_list_none (es : List Str) (lst : List (Str × Str))
    (read_file : Str → List Str) :
    resolveSubmissions (ExpArgVal.list es) none lst read_file =
      .ok (es.map fun e => (PyObj.s e, none)) := by
  simp [resolveSubmissions, nonTxtResolve, get_experiments_model, _get_list,
    truthyFilter, Except.map, List.map_map, Function.comp]

/-! The claim theorems. -/

/-- C5: for every listing function `L`, `_get_list` resolves `"all"` to
exactly `L()`, resolves a string with trailing `"*"` to exactly the
elements of `L()` that start with the stripped pattern, and resolves the
comma-delimited string `"a,b,c"` to `["a","b","c"]` without consulting `L`
at all, regardless of the contents of `L`. -/
theorem c5_entity_resolution :
    (∀ L : Unit → List PyObj,
      _get_list (NamesArg.str (str "all")) L = .ok (L ())) ∧
    (∀ (s : Str) (L : Unit → List Str), ['*'].isSuffixOf s = true →
      _get_list (NamesArg.str s) (fun u => (L u).map PyObj.s) =
        .ok (((L ()).filter fun x => s.dropLast.isPrefixOf x).map PyObj.s)) ∧
    (∀ L : Unit → List PyObj,
      _get_list (NamesArg.str (str "a,b,c")) L =
        .ok [PyObj.s (str "a"), PyObj.s (str "b"), PyObj.s (str "c")]) := by
  refine ⟨fun L => rfl, fun s L h => ?_, fun L => rfl⟩
  have hne : ¬s = str "all" := by
    intro he; subst he; exact absurd h (by decide)
  have hstep : _get_list (NamesArg.str s) (fun u => (L u).map PyObj.s) =
      if s = str "all" then .ok ((L ()).map PyObj.s)
      else if ['*'].isSuffixOf s then
        pyFilterStartsWith s.dropLast ((L ()).map PyObj.s)
      else .ok ((pySplit s ',').map PyObj.s) := rfl
  rw [hstep, if_neg hne, if_pos h]
  exact startsWith_filter s.dropLast (L ())

/-- C5 witness: the wildcard selector `"exp_*"` against the listing
`["exp_a", "other"]` resolves to `["exp_a"]`. -/
theorem c5_entity_resolution_witness :
    _get_list (NamesArg.str (str "exp_*"))
      (fun _ => [PyObj.s (str "exp_a"), PyObj.s (str "other")]) =
      .ok [PyObj.s (str "exp_a")] := by
  have h := c5_entity_resolution.2.1 (str "exp_*")
    (fun _ => [str "exp_a", str "other"]) (by decide)
  exact h.trans (by decide)

/-- C6: `extract_model_path` takes the suffix of the recorded source path
after the original run id and strips a literal `artifacts/` segment when
present: for any prefix `p` and run id `rid` whose first occurrence in the
source sits right after `p`, source `p ++ rid ++ "/artifacts/model"` yields
`"model"`, and source `p ++ rid ++ "/model"` (no `artifacts/` segment) also
yields `"model"`. -/
theorem c6_extract_model_path (p rid : Str)
    (h1 : pyFind (p ++ (rid ++ str "/artifacts/model")) rid = (p.length : Int))
    (h2 : pyFind (p ++ (rid ++ str "/model")) rid = (p.length : Int)) :
    extract_model_path (p ++ (rid ++ str "/artifacts/model")) rid = str "model" ∧
    extract_model_path (p ++ (rid ++ str "/model")) rid = str "model" := by
  have key : ∀ rest : Str,
      pyFind (p ++ (rid ++ ('/' :: rest))) rid = (p.length : Int) →
      pyStripArtifacts rest = str "model" →
      extract_model_path (p ++ (rid ++ ('/' :: rest))) rid = str "model" := by
    intro rest hf hs
    unfold extract_model_path
    rw [hf]
    have hn : (1 + (p.length : Int) + (rid.length : Int)).toNat =
        (p ++ rid).length + 1 := by
      simp [List.length_append]; omega
    have hassoc : p ++ (rid ++ ('/' :: rest)) = (p ++ rid) ++ ('/' :: rest) := by
      simp [List.append_assoc]
    rw [hn, hassoc, drop_len_add (p ++ rid) ('/' :: rest) 1]
    simpa using hs
  exact ⟨key (str "artifacts/model") h1 (by decide),
         key (str "model") h2 (by decide)⟩

/-- C6 witness: the two path shapes of the claim at the concrete source
paths `/a/b/run123/artifacts/model` and `/a/b/run123/model`. -/
theorem c6_extract_model_path_witness :
    extract_model_path (str "/a/b/" ++ (str "run123" ++ str "/artifacts/model"))
      (str "run123") = str "model" ∧
    extract_model_path (str "/a/b/" ++ (str "run123" ++ str "/model"))
      (str "run123") = str "model" :=
  c6_extract_model_path (str "/a/b/") (str "run123") (by decide) (by decide)

/-- C10: for every string argument ending in `".txt"` (the documented
file-of-names input form) and every filter, listing, file content and task
environment, `export_experiments` raises `NameError` - the guard variable
`export_all_runs` of the filter step is assigned only on the non-file
branch - so the file-input path never completes and no export task is ever
submitted (the outcome is the same for every task environment). -/
theorem c10_txt_input_name_error (v : Str) (filt : Option Str)
    (lst : List (Str × Str)) (read_file : Str → List Str)
    (env : PyObj → Option (List Str) → TaskCollab) (existing : Option Manifest)
    (h : (str ".txt").isSuffixOf v = true) :
    export_experiments (ExpArgVal.str v) filt lst read_file env existing =
      .error (PyErr.nameError (str "export_all_runs")) := by
  simp [export_experiments, export_experimentsCore, resolveSubmissions, h,
    Except.map]

/-- C10 witness: the concrete file argument `"exps.txt"`, with no filter. -/
theorem c10_txt_input_name_error_witness :
    export_experiments (ExpArgVal.str (str "exps.txt")) none [] (fun _ => [str "x"])
      envBoom none = .error (PyErr.nameError (str "export_all_runs")) :=
  c10_txt_input_name_error (str "exps.txt") none [] (fun _ => [str "x"])
    envBoom none (by decide)

/-- C3: every exception a per-entity export task's collaborators raise -
remote-API, internal, or unclassified - is caught inside
`_export_experiment` and converted to the sentinel outcome
`ok_runs = -1, failed_runs = -1` with no appended detail record; and the
orchestrator never fails because of a task: whether `export_experiments`
completes is independent of the task environment, and whenever entity
resolution succeeds the orchestrator returns a report for every task
environment, with no unhandled exception. -/
theorem c3_task_exceptions_caught :
    (∀ (c : TaskCollab) (x : PyObj),
      ((∃ e, c.get_experiment = CollabResult.raise e) ∨
       (∃ e, c.export_experiment = CollabResult.raise e)) →
      (_export_experiment c x).1.ok_runs = -1 ∧
      (_export_experiment c x).1.failed_runs = -1 ∧
      (_export_experiment c x).2 = none) ∧
    (∀ arg filt lst read_file env env' existing,
      exceptIsOk (export_experiments arg filt lst read_file env existing) =
      exceptIsOk (export_experiments arg filt lst read_file env' existing)) ∧
    (∀ arg filt lst read_file env existing subs,
      resolveSubmissions arg filt lst read_file = .ok subs →
      ∃ m, export_experiments arg filt lst read_file env existing = .ok m) := by
  refine ⟨task_sentinel, fun arg filt lst read_file env env' existing => ?_,
    fun arg filt lst read_file env existing subs h => ?_⟩
  · cases hr : resolveSubmissions arg filt lst read_file <;>
      cases existing <;>
        simp [export_experiments, export_experimentsCore, hr, Except.map, exceptIsOk]
  · cases existing <;>
      simp [export_experiments, export_experimentsCore, h, Except.map]

/-- C3 witness: a task whose collaborators raise yields the sentinel, and
the orchestrator completes on a resolved explicit list under the
all-raising task environment. -/
theorem c3_task_exceptions_caught_witness :
    ((_export_experiment (envBoom (PyObj.s (str "e")) none) (PyObj.s (str "e"))).1.ok_runs = -1 ∧
     (_export_experiment (envBoom (PyObj.s (str "e")) none) (PyObj.s (str "e"))).1.failed_runs = -1 ∧
     (_export_experiment (envBoom (PyObj.s (str "e")) none) (PyObj.s (str "e"))).2 = none) ∧
    (∃ m, export_experiments (ExpArgVal.list [str "e"]) none [] (fun _ => [])
        envBoom none = .ok m) :=
  ⟨c3_task_exceptions_caught.1 _ _ (Or.inl ⟨_, rfl⟩),
   c3_task_exceptions_caught.2.2 (ExpArgVal.list [str "e"]) none [] (fun _ => [])
     envBoom none [(PyObj.s (str "e"), none)] (by decide)⟩

/-- C4 counterexample: the explicit comma-delimited selector `"ab,cd"`
resolves to the exact targets `["ab","cd"]` when no filter is supplied, yet
supplying the filter `"a"` routes those explicit targets through the filter
loop, which misreads each two-character name as a `(name, id)` pair and
submits `["b"]` - so the filter is applied to an explicit selector,
contradicting the claim that it never is. -/
theorem c4_filter_counterexample :
    (export_experiments (ExpArgVal.str (str "ab,cd")) none [] (fun _ => [])
      envBoom none).map (fun m => m.info.experiment_names) =
        .ok [PyObj.s (str "ab"), PyObj.s (str "cd")] ∧
    (export_experiments (ExpArgVal.str (str "ab,cd")) (some (str "a")) [] (fun _ => [])
      envBoom none).map (fun m => m.info.experiment_names) =
        .ok [PyObj.s (str "b")] ∧
    [PyObj.s (str "b")] ≠ [PyObj.s (str "ab"), PyObj.s (str "cd")] := by decide

/-- C4 amended: the substring filter is bypassed only when the experiments
argument is a dict - for dict input the result is independent of the
filter - while for any non-dict, non-file argument, an explicit
comma-delimited selector included, a truthy filter routes the resolved
entities through the filter loop and can change the submitted set. -/
theorem c4_filter_amended :
    (∀ d filt lst read_file env existing,
      export_experiments (ExpArgVal.dict d) filt lst read_file env existing =
      export_experiments (ExpArgVal.dict d) none lst read_file env existing) ∧
    export_experiments (ExpArgVal.str (str "ab,cd")) (some (str "a")) [] (fun _ => [])
        envBoom none ≠
      export_experiments (ExpArgVal.str (str "ab,cd")) none [] (fun _ => [])
        envBoom none := by
  refine ⟨fun d filt lst read_file env existing => rfl, by decide⟩

/-- C9: when a manifest already exists at the output path, the bulk export
orchestrator writes the merge of the new report with the existing manifest
instead of overwriting it, and sets the `note` field of the info section to
the fixed merge annotation; when no manifest exists, the new report is
written as-is, with no note. -/
theorem c9_manifest_merge (arg : ExpArgVal) (filt : Option Str)
    (lst : List (Str × Str)) (read_file : Str → List Str)
    (env : PyObj → Option (List Str) → TaskCollab) (fresh : Manifest)
    (h : export_experimentsCore arg filt lst read_file env = .ok fresh) :
    (export_experiments arg filt lst read_file env none = .ok fresh ∧
     fresh.info.note = none) ∧
    (∀ old : Manifest,
      export_experiments arg filt lst read_file env (some old) =
        .ok { mlflow := merge_mlflow old.mlflow fresh.mlflow,
              info := { merge_info old.info fresh.info with note := some mergedNote } }) := by
  refine ⟨⟨?_, ?_⟩, fun old => ?_⟩
  · simp [export_experiments, h, Except.map]
  · unfold export_experimentsCore at h
    cases hr : resolveSubmissions arg filt lst read_file with
    | error e => rw [hr] at h; simp [Except.map] at h
    | ok subs =>
      rw [hr] at h
      simp [Except.map] at h
      rw [← h]
      rfl
  · simp [export_experiments, h, Except.map]

/-- C9 witness: exporting the explicit list `["e"]` over an output
directory already holding `oldSample` merges the two manifests and sets the
merge note. -/
theorem c9_manifest_merge_witness :
    export_experiments (ExpArgVal.list [str "e"]) none [] (fun _ => [])
      envBoom (some oldSample) =
      .ok { mlflow := merge_mlflow oldSample.mlflow freshSample.mlflow,
            info := { merge_info oldSample.info freshSample.info with
                      note := some mergedNote } } :=
  (c9_manifest_merge (ExpArgVal.list [str "e"]) none [] (fun _ => [])
    envBoom freshSample (by decide)).2 oldSample

theorem importOneVersion_create_irrel (env : ImportEnv)
    (f : Str → CollabResult Unit) (d mn : Str) (v : VersionRec) :
    importOneVersion { env with create_registered_model := f } d mn v =
      importOneVersion env d mn v := rfl

theorem importVersions_create_irrel (env : ImportEnv)
    (f : Str → CollabResult Unit) (d mn : Str) (vs : List VersionRec) :
    importVersions { env with create_registered_model := f } d mn vs =
      importVersions env d mn vs := by
  induction vs with
  | nil => rfl
  | cons v rest ih => simp [importVersions, importOneVersion_create_irrel, ih]

theorem afterCreate_create_irrel (env : ImportEnv)
    (f : Str → CollabResult Unit) (d mn en : Str) (dct : ModelDict) :
    afterCreate { env with create_registered_model := f } d mn en dct =
      afterCreate env d mn en dct := by
  simp [afterCreate, importVersions_create_irrel]

/-- C7: creating the destination registered model treats a `RestException`
whose text contains `RESOURCE_ALREADY_EXISTS: Registered Model` as success
- the whole import then behaves exactly as if the creation had succeeded,
so a re-run against an already-created model of the same name neither
raises nor issues any further creation call - while a creation failure of
any other kind (a different `RestException`, or an exception of any other
class) propagates and is fatal to the whole import: nothing beyond the
creation call happens. -/
theorem c7_create_already_exists (env : ImportEnv) (input_dir : Str)
    (dct : ModelDict) (model_name : Option Str) (experiment_name : Str) (m : Str) :
    (containsSub m alreadyExistsMsg = true →
      import_model
        { env with create_registered_model := fun _ => .raise (PyExc.restException m) }
        input_dir dct model_name experiment_name false =
      import_model { env with create_registered_model := fun _ => .ok () }
        input_dir dct model_name experiment_name false) ∧
    (∀ e : PyExc,
      (∀ m2, e = PyExc.restException m2 → containsSub m2 alreadyExistsMsg = false) →
      import_model { env with create_registered_model := fun _ => .raise e }
        input_dir dct model_name experiment_name false =
      ([Event.createModelCalled (model_name.getD dct.name)], some e)) := by
  constructor
  · intro h
    simp [import_model, h, afterCreate_create_irrel]
  · intro e he
    cases e with
    | restException m2 =>
      have h2 := he m2 rfl
      simp [import_model, h2]
    | exportImportException msg => simp [import_model]
    | otherException msg => simp [import_model]

/-- C7 witness: an already-exists refusal leaves the import identical to a
successful creation, and a permission-denied refusal is fatal with no
version processed. -/
theorem c7_create_already_exists_witness :
    (import_model
      { envImp with create_registered_model :=
          fun _ => CollabResult.raise (PyExc.restException alreadyExistsMsg) }
      (str "/in") mdl12 none (str "e") false =
     import_model { envImp with create_registered_model := fun _ => .ok () }
      (str "/in") mdl12 none (str "e") false) ∧
    (import_model
      { envImp with create_registered_model :=
          fun _ => CollabResult.raise (PyExc.restException (str "PERMISSION_DENIED")) }
      (str "/in") mdl12 none (str "e") false =
     ([Event.createModelCalled (str "m")],
      some (PyExc.restException (str "PERMISSION_DENIED")))) :=
  ⟨(c7_create_already_exists envImp (str "/in") mdl12 none (str "e")
      alreadyExistsMsg).1 (by decide),
   (c7_create_already_exists envImp (str "/in") mdl12 none (str "e")
      alreadyExistsMsg).2 (PyExc.restException (str "PERMISSION_DENIED"))
      (fun m2 hm => by injection hm with hm; subst hm; decide)⟩

/-- C8: before the destination model version is created, the composed
source path is checked: when it does not start with `dbfs:` and does not
exist, the version import raises the missing-source exception right there;
when it does not start with `dbfs:` and exists, no such exception is raised
and the flow proceeds to the creation steps; and when it starts with
`dbfs:` no existence check is made at all - the outcome is the same for
every filesystem - and the flow proceeds to the creation steps. -/
theorem c8_source_existence_check (env : ImportEnv) (input_dir model_name : Str)
    (v : VersionRec) (new_run_id : Str) (run : RunInfo) (src : Str)
    (h1 : env.import_run (os_path_join input_dir v.run_id) = CollabResult.ok new_run_id)
    (h2 : env.get_run new_run_id = CollabResult.ok run)
    (hsrc : src = path_join run.artifact_uri (extract_model_path v.source v.run_id)) :
    ((str "dbfs:").isPrefixOf src = true →
      ∀ pf, importOneVersion { env with path_exists := pf } input_dir model_name v =
        (Event.importedRun v.version ::
          (createVersionSteps { env with path_exists := pf } model_name v src new_run_id).1,
         (createVersionSteps { env with path_exists := pf } model_name v src new_run_id).2)) ∧
    ((str "dbfs:").isPrefixOf src = false → env.path_exists src = false →
      importOneVersion env input_dir model_name v =
        ([Event.importedRun v.version], some (missingSrcExc src))) ∧
    ((str "dbfs:").isPrefixOf src = false → env.path_exists src = true →
      importOneVersion env input_dir model_name v =
        (Event.importedRun v.version ::
          (createVersionSteps env model_name v src new_run_id).1,
         (createVersionSteps env model_name v src new_run_id).2)) := by
  subst hsrc
  refine ⟨fun hd pf => ?_, fun hd he => ?_, fun hd he => ?_⟩
  · simp [importOneVersion, h1, h2, hd]
  · simp [importOneVersion, h1, h2, hd, he]
  · simp [importOneVersion, h1, h2, hd, he]

/-- C8 witness: under `envImp` (no path exists) version `v1` composes the
non-`dbfs:` source `/dest/art/model` and the version import raises the
missing-source exception. -/
theorem c8_source_existence_check_witness :
    importOneVersion envImp (str "/in") (str "m") v1 =
      ([Event.importedRun (str "1")], some (missingSrcExc (str "/dest/art/model"))) :=
  (c8_source_existence_check envImp (str "/in") (str "m") v1 (str "d1")
    { run_id := str "d1", artifact_uri := str "/dest/art" }
    (str "/dest/art/model") rfl rfl (by decide)).2.1 (by decide) (by decide)

/-- C2 counterexample: under an environment whose filesystem is empty, the
two-version import of `mdl12` stops at version 1 - its composed source path
is missing, the exception escapes `import_model`, and version 2 is never
touched: the orchestrator does not continue with the next recorded
version. -/
theorem c2_version_loop_counterexample :
    import_model envImp (str "/in") mdl12 none (str "e") false =
      ([Event.createModelCalled (str "m"), Event.setExperimentCalled (str "e"),
        Event.importedRun (str "1")],
       some (missingSrcExc (str "/dest/art/model"))) ∧
    (import_model envImp (str "/in") mdl12 none (str "e") false).2.isSome = true ∧
    Event.importedRun (str "2") ∉
      (import_model envImp (str "/in") mdl12 none (str "e") false).1 := by decide

/-- C2 amended: a failure in any step of one version aborts that version's
remaining steps AND the whole loop - the exception propagates and none of
the subsequent recorded versions is processed (their would-be events are
absent); the orchestrator does not continue with the next version. -/
theorem c2_version_loop_amended (env : ImportEnv) (input_dir model_name : Str)
    (vs1 : List VersionRec) (v : VersionRec) (vs2 : List VersionRec)
    (evs : List Event) (e : PyExc)
    (hok : ∀ u ∈ vs1, (importOneVersion env input_dir model_name u).2 = none)
    (hfail : importOneVersion env input_dir model_name v = (evs, some e)) :
    importVersions env input_dir model_name (vs1 ++ v :: vs2) =
      ((vs1.map fun u => (importOneVersion env input_dir model_name u).1).flatten ++ evs,
       some e) := by
  induction vs1 with
  | nil => simp [importVersions, hfail]
  | cons u us ih =>
    have hu : (importOneVersion env input_dir model_name u).2 = none :=
      hok u (by simp)
    have hrest := ih (fun w hw => hok w (by simp [hw]))
    simp [importVersions, hu, hrest, List.append_assoc]

/-- C2 witness: with `envImp2`, version `v1` succeeds, version `v3` fails
at the missing source `/dest/art/modelB`, and the loop over
`[v1, v3, v2]` ends there with `v2` unprocessed. -/
theorem c2_version_loop_amended_witness :
    importVersions envImp2 (str "/in") (str "m") ([v1] ++ v3 :: [v2]) =
      (([v1].map fun u => (importOneVersion envImp2 (str "/in") (str "m") u).1).flatten ++
        [Event.importedRun (str "3")],
       some (missingSrcExc (str "/dest/art/modelB"))) :=
  c2_version_loop_amended envImp2 (str "/in") (str "m") [v1] v3 [v2]
    [Event.importedRun (str "3")] (missingSrcExc (str "/dest/art/modelB"))
    (by decide) (by decide)

/-- C1 counterexample: over the two entities `e1` (succeeds with five ok
runs, none failed) and `e2` (fails, sentinel), the report's status is
`ok_runs = 4`, `failed_runs = -1`, `total_runs = 3`: the sentinel is summed
into both buckets, so `ok_runs` does not fully reflect the succeeding
task's five sub-items and `failed_runs` is not at least the failing task's
attempted sub-items (it is negative). -/
theorem c1_sentinel_counterexample :
    (export_experiments (ExpArgVal.list [str "e1", str "e2"]) none [] (fun _ => [])
      envOneFail none).map
        (fun m => (m.info.status.ok_runs, m.info.status.failed_runs,
                   m.info.status.total_runs)) = .ok (4, -1, 3) ∧
    ¬((4 : Int) = 5 ∧ (-1 : Int) ≥ 0) := by decide

/-- C1 amended: for a bulk export over an explicit list of entities in
which task `b` fails (its collaborators raise) and the other tasks succeed,
the orchestrator completes with a report, but the `-1` sentinel pair is
summed into the totals rather than excluded: `ok_runs` is the succeeding
tasks' ok sum minus one and `failed_runs` is the succeeding tasks' failed
sum minus one. -/
theorem c1_sentinel_amended (pre post : List Str) (b : Str)
    (lst : List (Str × Str)) (read_file : Str → List Str)
    (env : PyObj → Option (List Str) → TaskCollab)
    (hfail : (∃ e, (env (PyObj.s b) none).get_experiment = CollabResult.raise e) ∨
             (∃ e, (env (PyObj.s b) none).export_experiment = CollabResult.raise e))
    (hok : ∀ x ∈ pre ++ post,
      (∃ i, (env (PyObj.s x) none).get_experiment = CollabResult.ok i) ∧
      (∃ nf, (env (PyObj.s x) none).export_experiment = CollabResult.ok nf)) :
    ∃ m, export_experiments (ExpArgVal.list (pre ++ b :: post)) none lst read_file
        env none = .ok m ∧
      m.info.status.ok_runs = taskOkSum env pre + taskOkSum env post - 1 ∧
      m.info.status.failed_runs = taskFailedSum env pre + taskFailedSum env post - 1 := by
  have hres := resolve_list_none (pre ++ b :: post) lst read_file
  have hcore : export_experimentsCore (ExpArgVal.list (pre ++ b :: post)) none lst
      read_file env =
      .ok (buildReport ((pre ++ b :: post).map fun e =>
        _export_experiment (env (PyObj.s e) none) (PyObj.s e))) := by
    simp [export_experimentsCore, hres, Except.map, List.map_map, Function.comp_def]
  refine ⟨buildReport ((pre ++ b :: post).map fun e =>
      _export_experiment (env (PyObj.s e) none) (PyObj.s e)), ?_, ?_, ?_⟩
  · simp [export_experiments, hcore, Except.map]
  · have hb := (task_sentinel (env (PyObj.s b) none) (PyObj.s b) hfail).1
    simp [buildReport, taskOkSum, List.map_append, List.sum_append, List.map_map,
      Function.comp_def, hb]
    omega
  · have hb := (task_sentinel (env (PyObj.s b) none) (PyObj.s b) hfail).2.1
    simp [buildReport, taskFailedSum, List.map_append, List.sum_append, List.map_map,
      Function.comp_def, hb]
    omega

/-- C1 witness: the explicit list `["e1", "e2"]` under `envOneFail`, where
`e1` succeeds and `e2` fails. -/
theorem c1_sentinel_amended_witness :
    ∃ m, export_experiments (ExpArgVal.list ([str "e1"] ++ (str "e2") :: []))
        none [] (fun _ => []) envOneFail none = .ok m ∧
      m.info.status.ok_runs =
        taskOkSum envOneFail [str "e1"] + taskOkSum envOneFail [] - 1 ∧
      m.info.status.failed_runs =
        taskFailedSum envOneFail [str "e1"] + taskFailedSum envOneFail [] - 1 :=
  c1_sentinel_amended [str "e1"] [] (str "e2") [] (fun _ => []) envOneFail
    (Or.inl ⟨PyExc.restException (str "no such experiment"), rfl⟩)
    (by intro x hx
        simp at hx
        subst hx
        exact ⟨⟨{ name := str "E1", experiment_id := str "1" }, rfl⟩, ⟨(5, 0), rfl⟩⟩)
